import Mathlib

/-!
Shallow embedding of umoci's reference-name subsystem (oci/casext/refname.go).

The Go code manipulates an OCI top-level index (an ordered list of
descriptors) held by an external store.  Descriptors carry an optional
string-to-string annotation map; a "reference name" is the value of the
reserved annotation key stored on top-level entries.  The store (GetIndex /
PutIndex) and the generic graph walker (Walk) are external collaborators of
refname.go; the store is modelled as an explicit state record and the walker
is modelled from the spec (section 6 of the design document).  Go maps are
modelled as association lists (only lookup/insert semantics matter), Go nil
maps as the `none` case of an option, and Go error returns as `Except`.
-/

set_option autoImplicit false

namespace Umoci

/-- Media-type constants from the OCI image-spec (specs-go/v1), as used by
isKnownMediaType in refname.go. -/
def MediaTypeDescriptor : String := "application/vnd.oci.descriptor.v1+json"

def MediaTypeImageManifest : String := "application/vnd.oci.image.manifest.v1+json"

def MediaTypeImageIndex : String := "application/vnd.oci.image.index.v1+json"

def MediaTypeImageLayer : String := "application/vnd.oci.image.layer.v1.tar"

def MediaTypeImageLayerGzip : String := "application/vnd.oci.image.layer.v1.tar+gzip"

def MediaTypeImageLayerNonDistributable : String :=
  "application/vnd.oci.image.layer.nondistributable.v1.tar"

def MediaTypeImageLayerNonDistributableGzip : String :=
  "application/vnd.oci.image.layer.nondistributable.v1.tar+gzip"

def MediaTypeImageConfig : String := "application/vnd.oci.image.config.v1+json"

/-- The reserved annotation key (ispec.AnnotationRefName) whose value is the
reference name of a top-level index entry. -/
def annotationRefName : String := "org.opencontainers.image.ref.name"

/-- Lookup in a Go string map modelled as an association list.  Mirrors
`v, ok := m[k]` (first matching key wins; Go maps have unique keys, which
alistSet preserves). -/
def alistLookup : List (String × String) → String → Option String
  | [], _ => none
  | (k', v') :: rest, k => if k == k' then some v' else alistLookup rest k

/-- Insert-or-replace in a Go string map modelled as an association list.
Mirrors `m[k] = v`. -/
def alistSet : List (String × String) → String → String → List (String × String)
  | [], k, v => [(k, v)]
  | (k', v') :: rest, k, v =>
    if k' == k then (k, v) :: rest else (k', v') :: alistSet rest k v

/-- ispec.Descriptor restricted to the fields refname.go reads or writes.
`annots` models the Annotations map, `none` being Go's nil map. -/
structure Descriptor where
  mediaType : String
  digest : String
  size : Int
  annots : Option (List (String × String))
deriving DecidableEq

/-- ispec.Index: the ordered top-level sequence of descriptors plus the
fields refname.go leaves untouched. -/
structure Index where
  schemaVersion : Nat
  manifests : List Descriptor
  annots : Option (List (String × String))
deriving DecidableEq

/-- `m[k]` with comma-ok: `none` when the map is nil or the key is absent
(mirrors `ref, ok := descriptor.Annotations[key]` in ListReferences). -/
def annotLookup (a : Option (List (String × String))) (k : String) : Option String :=
  match a with
  | none => none
  | some m => alistLookup m k

/-- Plain Go map indexing `m[k]`: the zero value (empty string) when the map
is nil or the key is absent. -/
def annotGet (a : Option (List (String × String))) (k : String) : String :=
  (annotLookup a k).getD ""

/-- isKnownMediaType (refname.go:29-38): whether a media type is in the fixed
set known by the image-spec. -/
def isKnownMediaType (mediaType : String) : Bool :=
  mediaType == MediaTypeDescriptor ||
  mediaType == MediaTypeImageManifest ||
  mediaType == MediaTypeImageIndex ||
  mediaType == MediaTypeImageLayer ||
  mediaType == MediaTypeImageLayerGzip ||
  mediaType == MediaTypeImageLayerNonDistributable ||
  mediaType == MediaTypeImageLayerNonDistributableGzip ||
  mediaType == MediaTypeImageConfig

/-- The comparison `descriptor.Annotations[ispec.AnnotationRefName] == refname`
performed by ResolveReference (refname.go:66), and negated by the removal
loops of UpdateReference (refname.go:111) and DeleteReference
(refname.go:185). -/
def matchesRef (refname : String) (d : Descriptor) : Bool :=
  annotGet d.annots annotationRefName == refname

/-- The root-selection loop of ResolveReference (refname.go:57-69): every
top-level descriptor whose reference annotation equals refname, in index
order. -/
def selectRoots (refname : String) (manifests : List Descriptor) : List Descriptor :=
  manifests.filter (fun d => matchesRef refname d)

/-- The removal loops of UpdateReference (refname.go:109-114) and
DeleteReference (refname.go:183-188): keep every entry whose reference
annotation does not equal refname, in index order. -/
def removeRefEntries (refname : String) (manifests : List Descriptor) : List Descriptor :=
  manifests.filter (fun d => !(matchesRef refname d))

/-- The tagging step shared verbatim by UpdateReference (refname.go:120-124)
and AddReferences (refname.go:157-162): initialize the annotation map when it
is nil, then set the reference annotation to refname. -/
def tagDescriptor (refname : String) (descriptor : Descriptor) : Descriptor :=
  let base := match descriptor.annots with
    | none => []
    | some m => m
  { descriptor with annots := some (alistSet base annotationRefName refname) }

/-- errors.Wrap / errors.Wrapf from github.com/pkg/errors: the wrapping
message followed by the cause. -/
def wrapErr (msg err : String) : String := msg ++ ": " ++ err

/-- warning text of refname.go:117 (UpdateReference ambiguity). -/
def warnUpdateAmbiguous : String :=
  "multiple references match the given reference name -- all of them have been replaced due to this ambiguity"

/-- warning text of refname.go:191 (DeleteReference ambiguity). -/
def warnDeleteAmbiguous : String :=
  "multiple references match the given reference name -- all of them have been deleted due to this ambiguity"

/-- warning text of refname.go:151 (AddReferences with several descriptors). -/
def warnAddAmbiguous : String :=
  "umoci has been requested to add multiple descriptors with the same reference name -- this is intentionally creating ambiguity in the OCI image that some tools may be unable to resolve"

/-- The engine/store state threaded through every operation.  `index` is the
stored top-level index; `getErr` and `putErr` make GetIndex or PutIndex fail
(the store is an external collaborator and may fail arbitrarily); `children`
and `walkFuel` parameterize the spec-modelled graph walker; the counters
record how many GetIndex/PutIndex calls were issued; `warnings` collects
warning-level log output (log.Warn). -/
structure Store where
  index : Index
  getErr : Option String
  putErr : Option String
  children : Descriptor → Except String (List Descriptor)
  walkFuel : Nat
  getCount : Nat
  putCount : Nat
  warnings : List String

/-- The three-way outcome of a walk visitor: `proceed` is a nil error
(recurse into children), `skipDesc` is the ErrSkipDescriptor prune sentinel,
`fail` is any other error (aborts the whole walk). -/
inductive VisitAction where
  | proceed
  | skipDesc
  | fail (msg : String)
deriving DecidableEq

/-- The visitor closure passed to e.Walk by ResolveReference
(refname.go:76-87).  It threads the `resolutions` accumulator: known
non-manifest media types pass through unrecorded, everything else (manifest
or unknown) is recorded and pruned. -/
def resolveVisit (resolutions : List Descriptor) (descriptor : Descriptor) :
    List Descriptor × VisitAction :=
  if isKnownMediaType descriptor.mediaType &&
      descriptor.mediaType != MediaTypeImageManifest then
    (resolutions, VisitAction.proceed)
  else
    (resolutions ++ [descriptor], VisitAction.skipDesc)

/-- Modelled from the spec: sequential traversal of a list of siblings by the
external graph walker (the repository's walk code is not under src/).  A
failing child aborts the remainder. -/
def walkList' (walkOne : List Descriptor → Descriptor → Except String (List Descriptor)) :
    List Descriptor → List Descriptor → Except String (List Descriptor)
  | st, [] => Except.ok st
  | st, c :: cs =>
    match walkOne st c with
    | Except.error e => Except.error e
    | Except.ok st2 => walkList' walkOne st2 cs

/-- Modelled from the spec: the external graph walker e.Walk (design doc
section 6; the repository's walk code is not under src/).  The blob graph is
given by a `children` map that may fail like the real store; `fuel` bounds
the recursion depth, standing in for the real walker's digest-deduplication
termination argument.  At each node the visitor runs first: `proceed`
recurses into the node's children, `skipDesc` (the prune sentinel) stops
descending at this node without failing, `fail` and store failures abort the
whole walk. -/
def walkFrom (children : Descriptor → Except String (List Descriptor))
    (visit : List Descriptor → Descriptor → List Descriptor × VisitAction) :
    Nat → List Descriptor → Descriptor → Except String (List Descriptor)
  | 0 => fun _ _ => Except.error "walk: recursion depth exceeded"
  | fuel + 1 => fun st d =>
    match visit st d with
    | (_, VisitAction.fail e) => Except.error e
    | (st2, VisitAction.skipDesc) => Except.ok st2
    | (st2, VisitAction.proceed) =>
      match children d with
      | Except.error e => Except.error e
      | Except.ok cs => walkList' (walkFrom children visit fuel) st2 cs

/-- The per-root loop of ResolveReference (refname.go:73-90): walk each root
in turn, threading the shared `resolutions` accumulator; a walk failure is
wrapped with the root's digest and aborts the whole resolution. -/
def resolveRoots (children : Descriptor → Except String (List Descriptor))
    (fuel : Nat) : List Descriptor → List Descriptor → Except String (List Descriptor)
  | [], acc => Except.ok acc
  | root :: rest, acc =>
    match walkFrom children resolveVisit fuel acc root with
    | Except.error e => Except.error (wrapErr ("walk " ++ root.digest) e)
    | Except.ok acc2 => resolveRoots children fuel rest acc2

/-- ResolveReference (refname.go:51-96): fetch the index (wrapping a fetch
failure with "get top-level index"), select the matching roots, and collect
the resolution set by walking each root. -/
def ResolveReference (refname : String) (s : Store) :
    Store × Except String (List Descriptor) :=
  match s.getErr with
  | some e =>
    ({ s with getCount := s.getCount + 1 },
     Except.error (wrapErr "get top-level index" e))
  | none =>
    ({ s with getCount := s.getCount + 1 },
     resolveRoots s.children s.walkFuel (selectRoots refname s.index.manifests) [])

/-- UpdateReference (refname.go:101-133): drop every entry matching refname,
warn when the (backwards, see refname.go:115) removed-entry count check
fires, append the tagged descriptor, and commit, wrapping a commit failure
with "replace index". -/
def UpdateReference (refname : String) (descriptor : Descriptor) (s : Store) :
    Store × Except String Unit :=
  match s.getErr with
  | some e =>
    ({ s with getCount := s.getCount + 1 },
     Except.error (wrapErr "get top-level index" e))
  | none =>
    let newManifests := removeRefEntries refname s.index.manifests
    let warned :=
      if ((newManifests.length : Int) - (s.index.manifests.length : Int) > 1) then
        s.warnings ++ [warnUpdateAmbiguous]
      else s.warnings
    let tagged := tagDescriptor refname descriptor
    match s.putErr with
    | some e =>
      ({ s with getCount := s.getCount + 1, putCount := s.putCount + 1,
                warnings := warned },
       Except.error (wrapErr "replace index" e))
    | none =>
      ({ s with getCount := s.getCount + 1, putCount := s.putCount + 1,
                warnings := warned,
                index := { s.index with manifests := newManifests ++ [tagged] } },
       Except.ok ())

/-- AddReferences (refname.go:137-171): succeed immediately (no store access)
when no descriptors are given; otherwise fetch the index, warn when several
descriptors are supplied, tag all of them, append them, and commit. -/
def AddReferences (refname : String) (descriptors : List Descriptor) (s : Store) :
    Store × Except String Unit :=
  if descriptors.length == 0 then
    (s, Except.ok ())
  else
    match s.getErr with
    | some e =>
      ({ s with getCount := s.getCount + 1 },
       Except.error (wrapErr "get top-level index" e))
    | none =>
      let warned :=
        if descriptors.length > 1 then s.warnings ++ [warnAddAmbiguous]
        else s.warnings
      let converted := descriptors.map (tagDescriptor refname)
      match s.putErr with
      | some e =>
        ({ s with getCount := s.getCount + 1, putCount := s.putCount + 1,
                  warnings := warned },
         Except.error (wrapErr "replace index" e))
      | none =>
        ({ s with getCount := s.getCount + 1, putCount := s.putCount + 1,
                  warnings := warned,
                  index := { s.index with
                             manifests := s.index.manifests ++ converted } },
         Except.ok ())

/-- DeleteReference (refname.go:175-200): drop every entry matching refname,
warn when the (backwards, see refname.go:189) removed-entry count check
fires, and commit the filtered sequence. -/
def DeleteReference (refname : String) (s : Store) : Store × Except String Unit :=
  match s.getErr with
  | some e =>
    ({ s with getCount := s.getCount + 1 },
     Except.error (wrapErr "get top-level index" e))
  | none =>
    let newManifests := removeRefEntries refname s.index.manifests
    let warned :=
      if ((newManifests.length : Int) - (s.index.manifests.length : Int) > 1) then
        s.warnings ++ [warnDeleteAmbiguous]
      else s.warnings
    match s.putErr with
    | some e =>
      ({ s with getCount := s.getCount + 1, putCount := s.putCount + 1,
                warnings := warned },
       Except.error (wrapErr "replace index" e))
    | none =>
      ({ s with getCount := s.getCount + 1, putCount := s.putCount + 1,
                warnings := warned,
                index := { s.index with manifests := newManifests } },
       Except.ok ())

/-- ListReferences (refname.go:205-220): the reference-annotation value of
every top-level entry that carries the key, in index order, duplicates
preserved. -/
def ListReferences (s : Store) : Store × Except String (List String) :=
  match s.getErr with
  | some e =>
    ({ s with getCount := s.getCount + 1 },
     Except.error (wrapErr "get top-level index" e))
  | none =>
    ({ s with getCount := s.getCount + 1 },
     Except.ok (s.index.manifests.filterMap
       (fun d => annotLookup d.annots annotationRefName)))

/-! ### Concrete fixtures used by the witnesses -/

/-- A blob store in which every descriptor has no children. -/
def emptyChildren : Descriptor → Except String (List Descriptor) :=
  fun _ => Except.ok []

/-- A blob store whose every child fetch fails. -/
def badChildren : Descriptor → Except String (List Descriptor) :=
  fun _ => Except.error "blob fetch failed"

/-- A healthy store holding the given top-level entries. -/
def mkStore (cs : Descriptor → Except String (List Descriptor))
    (ds : List Descriptor) : Store :=
  { index := { schemaVersion := 2, manifests := ds, annots := none },
    getErr := none, putErr := none, children := cs, walkFuel := 2,
    getCount := 0, putCount := 0, warnings := [] }

/-- An untagged image-manifest descriptor (nil annotation map). -/
def dManifestNode : Descriptor :=
  { mediaType := MediaTypeImageManifest, digest := "sha256:m1", size := 7,
    annots := none }

/-- An image-index descriptor tagged "x". -/
def dIndexNode : Descriptor :=
  { mediaType := MediaTypeImageIndex, digest := "sha256:i1", size := 9,
    annots := some [(annotationRefName, "x")] }

/-- First manifest tagged "a". -/
def dA1 : Descriptor :=
  { mediaType := MediaTypeImageManifest, digest := "sha256:a1", size := 1,
    annots := some [(annotationRefName, "a")] }

/-- Second manifest tagged "a". -/
def dA2 : Descriptor :=
  { mediaType := MediaTypeImageManifest, digest := "sha256:a2", size := 2,
    annots := some [(annotationRefName, "a")] }

/-- First manifest tagged "latest". -/
def dLatest1 : Descriptor :=
  { mediaType := MediaTypeImageManifest, digest := "sha256:l1", size := 3,
    annots := some [(annotationRefName, "latest")] }

/-- Second manifest tagged "latest". -/
def dLatest2 : Descriptor :=
  { mediaType := MediaTypeImageManifest, digest := "sha256:l2", size := 4,
    annots := some [(annotationRefName, "latest")] }

/-- A manifest tagged "other". -/
def dOther : Descriptor :=
  { mediaType := MediaTypeImageManifest, digest := "sha256:o1", size := 5,
    annots := some [(annotationRefName, "other")] }

/-- An untagged manifest (nil annotation map). -/
def dPlain : Descriptor :=
  { mediaType := MediaTypeImageManifest, digest := "sha256:p1", size := 6,
    annots := none }

/-- Store with two entries tagged "latest" and one tagged "other". -/
def sLatest : Store := mkStore emptyChildren [dLatest1, dLatest2, dOther]

/-- Store with two entries tagged "a". -/
def sAA : Store := mkStore emptyChildren [dA1, dA2]

/-- Empty healthy store. -/
def sEmpty : Store := mkStore emptyChildren []

/-- Store with one untagged entry. -/
def sPlain : Store := mkStore emptyChildren [dPlain]

/-- Store whose only root is tagged "x" but whose blob fetches fail. -/
def sWalkFail : Store := mkStore badChildren [dIndexNode]

/-! ### Helper lemmas -/

theorem alistLookup_set_self (m : List (String × String)) (k v : String) :
    alistLookup (alistSet m k v) k = some v := by
  induction m with
  | nil => simp [alistSet, alistLookup]
  | cons hd tl ih =>
    obtain ⟨k', v'⟩ := hd
    cases hkk : k' == k with
    | true => simp [alistSet, hkk, alistLookup]
    | false =>
      have hne : (k == k') = false := by
        simp only [beq_eq_false_iff_ne] at hkk ⊢
        exact fun he => hkk he.symm
      simp [alistSet, hkk, alistLookup, hne, ih]

theorem annotLookup_tag (r : String) (d : Descriptor) :
    annotLookup (tagDescriptor r d).annots annotationRefName = some r := by
  unfold tagDescriptor annotLookup
  cases d.annots <;> simp [alistLookup_set_self]

theorem annotGet_tag (r : String) (d : Descriptor) :
    annotGet (tagDescriptor r d).annots annotationRefName = r := by
  simp [annotGet, annotLookup_tag]

theorem matchesRef_tag (r : String) (d : Descriptor) :
    matchesRef r (tagDescriptor r d) = true := by
  simp [matchesRef, annotGet_tag]

theorem removeRef_filter_match (r : String) (l : List Descriptor) :
    (removeRefEntries r l).filter (fun d => matchesRef r d) = [] := by
  unfold removeRefEntries
  induction l with
  | nil => rfl
  | cons hd tl ih =>
    cases h : matchesRef r hd <;> simp [List.filter_cons, h, ih]

theorem removeRef_idem (r : String) (l : List Descriptor) :
    removeRefEntries r (removeRefEntries r l) = removeRefEntries r l := by
  unfold removeRefEntries
  induction l with
  | nil => rfl
  | cons hd tl ih =>
    cases h : matchesRef r hd <;> simp [List.filter_cons, h, ih]

theorem removeRef_length_le (r : String) (l : List Descriptor) :
    (removeRefEntries r l).length ≤ l.length :=
  List.length_filter_le _ l

theorem removeRef_not_gt_one (r : String) (l : List Descriptor) :
    ¬ (((removeRefEntries r l).length : Int) - (l.length : Int) > 1) := by
  have h := removeRef_length_le r l
  omega

theorem updateReference_run (r : String) (D : Descriptor) (s : Store)
    (hg : s.getErr = none) (hp : s.putErr = none) :
    (UpdateReference r D s).2 = Except.ok () ∧
    (UpdateReference r D s).1.index =
      { s.index with
        manifests := removeRefEntries r s.index.manifests ++ [tagDescriptor r D] } ∧
    (UpdateReference r D s).1.getErr = none ∧
    (UpdateReference r D s).1.putErr = none ∧
    (UpdateReference r D s).1.children = s.children ∧
    (UpdateReference r D s).1.walkFuel = s.walkFuel := by
  unfold UpdateReference
  rw [hg, hp]
  exact ⟨rfl, rfl, rfl, rfl, rfl, rfl⟩

theorem deleteReference_run (r : String) (s : Store)
    (hg : s.getErr = none) (hp : s.putErr = none) :
    (DeleteReference r s).2 = Except.ok () ∧
    (DeleteReference r s).1.index =
      { s.index with manifests := removeRefEntries r s.index.manifests } ∧
    (DeleteReference r s).1.getErr = none ∧
    (DeleteReference r s).1.putErr = none ∧
    (DeleteReference r s).1.children = s.children ∧
    (DeleteReference r s).1.walkFuel = s.walkFuel := by
  unfold DeleteReference
  rw [hg, hp]
  exact ⟨rfl, rfl, rfl, rfl, rfl, rfl⟩

theorem addReferences_run (r : String) (ds : List Descriptor) (s : Store)
    (hne : ds ≠ []) (hg : s.getErr = none) (hp : s.putErr = none) :
    (AddReferences r ds s).2 = Except.ok () ∧
    (AddReferences r ds s).1.index =
      { s.index with manifests := s.index.manifests ++ ds.map (tagDescriptor r) } ∧
    (AddReferences r ds s).1.getErr = none ∧
    (AddReferences r ds s).1.putErr = none ∧
    (AddReferences r ds s).1.children = s.children ∧
    (AddReferences r ds s).1.walkFuel = s.walkFuel := by
  obtain ⟨hd, tl, rfl⟩ := List.exists_cons_of_ne_nil hne
  unfold AddReferences
  rw [hg, hp]
  exact ⟨rfl, rfl, rfl, rfl, rfl, rfl⟩

theorem listReferences_run (s : Store) (hg : s.getErr = none) :
    (ListReferences s).2 = Except.ok (s.index.manifests.filterMap
      (fun d => annotLookup d.annots annotationRefName)) := by
  unfold ListReferences
  rw [hg]

theorem resolveReference_run (r : String) (s : Store) (hg : s.getErr = none) :
    (ResolveReference r s).2 =
      resolveRoots s.children s.walkFuel (selectRoots r s.index.manifests) [] := by
  unfold ResolveReference
  rw [hg]

theorem resolveRoots_append_ok
    (c : Descriptor → Except String (List Descriptor)) (f : Nat)
    (pre l : List Descriptor) (acc acc' : List Descriptor)
    (h : resolveRoots c f pre acc = Except.ok acc') :
    resolveRoots c f (pre ++ l) acc = resolveRoots c f l acc' := by
  induction pre generalizing acc with
  | nil =>
    simp only [resolveRoots] at h
    cases h
    simp
  | cons hd tl ih =>
    simp only [resolveRoots, List.cons_append] at h ⊢
    cases hw : walkFrom c resolveVisit f acc hd with
    | error e => rw [hw] at h; cases h
    | ok acc2 => rw [hw] at h; exact ih acc2 h

theorem walkFrom_manifest
    (c : Descriptor → Except String (List Descriptor)) (fuel : Nat)
    (acc : List Descriptor) (d : Descriptor) (res : List Descriptor)
    (hm : d.mediaType = MediaTypeImageManifest)
    (h : walkFrom c resolveVisit fuel acc d = Except.ok res) :
    res = acc ++ [d] := by
  cases fuel with
  | zero => simp [walkFrom] at h
  | succ n =>
    have hv : resolveVisit acc d = (acc ++ [d], VisitAction.skipDesc) := by
      simp [resolveVisit, hm]
    simp only [walkFrom, hv] at h
    cases h
    rfl

theorem resolveRoots_concat_manifest
    (c : Descriptor → Except String (List Descriptor)) (f : Nat)
    (l : List Descriptor) (root : Descriptor)
    (hm : root.mediaType = MediaTypeImageManifest)
    (acc res : List Descriptor)
    (h : resolveRoots c f (l ++ [root]) acc = Except.ok res) :
    root ∈ res := by
  induction l generalizing acc with
  | nil =>
    simp only [List.nil_append, resolveRoots] at h
    cases hw : walkFrom c resolveVisit f acc root with
    | error e => rw [hw] at h; cases h
    | ok acc2 =>
      rw [hw] at h
      simp only [resolveRoots] at h
      cases h
      have hres := walkFrom_manifest c f acc root res hm hw
      subst hres
      simp
  | cons hd tl ih =>
    simp only [List.cons_append, resolveRoots] at h
    cases hw : walkFrom c resolveVisit f acc hd with
    | error e => rw [hw] at h; cases h
    | ok acc2 => rw [hw] at h; exact ih acc2 h

theorem selectRoots_append (r : String) (l₁ l₂ : List Descriptor) :
    selectRoots r (l₁ ++ l₂) = selectRoots r l₁ ++ selectRoots r l₂ := by
  simp [selectRoots, List.filter_append]

theorem removeRef_append (r : String) (l₁ l₂ : List Descriptor) :
    removeRefEntries r (l₁ ++ l₂) =
      removeRefEntries r l₁ ++ removeRefEntries r l₂ := by
  simp [removeRefEntries, List.filter_append]

theorem selectRoots_removeRef (r : String) (l : List Descriptor) :
    selectRoots r (removeRefEntries r l) = [] :=
  removeRef_filter_match r l

theorem selectRoots_tag_single (r : String) (d : Descriptor) :
    selectRoots r [tagDescriptor r d] = [tagDescriptor r d] := by
  simp [selectRoots, List.filter_cons, matchesRef_tag]

theorem removeRef_tag_single (r : String) (d : Descriptor) :
    removeRefEntries r [tagDescriptor r d] = [] := by
  simp [removeRefEntries, List.filter_cons, matchesRef_tag]

theorem filterMap_annot_eq_filter_map (l : List Descriptor) :
    l.filterMap (fun d => annotLookup d.annots annotationRefName) =
      (l.filter (fun d => (annotLookup d.annots annotationRefName).isSome)).map
        (fun d => annotGet d.annots annotationRefName) := by
  induction l with
  | nil => rfl
  | cons hd tl ih =>
    cases h : annotLookup hd.annots annotationRefName with
    | none => simp [List.filterMap_cons, List.filter_cons, h, ih]
    | some v =>
      simp [List.filterMap_cons, List.filter_cons, h, ih, annotGet]

/-! ### Claim theorems -/

/-- C1: the claim says UpdateReference and DeleteReference emit an ambiguity
warning whenever more than one entry matching refname is removed.  The code
computes the removed-entry count backwards (len(newIndex)-len(index.Manifests)
at refname.go:115 and refname.go:189 is never positive), so no warning is ever
emitted: on an index holding two entries tagged "latest", both operations
remove two entries and succeed, yet the warning log stays empty. -/
theorem ambiguous_removal_emits_no_warning :
    (selectRoots "latest" sLatest.index.manifests).length = 2 ∧
    (UpdateReference "latest" dPlain sLatest).2 = Except.ok () ∧
    (UpdateReference "latest" dPlain sLatest).1.warnings = [] ∧
    (DeleteReference "latest" sLatest).2 = Except.ok () ∧
    (DeleteReference "latest" sLatest).1.warnings = [] ∧
    (DeleteReference "latest" sLatest).1.index.manifests.length + 2 =
      sLatest.index.manifests.length :=
  ⟨rfl, rfl, rfl, rfl, rfl, rfl⟩

/-- C2: the visitor policy of ResolveReference (refname.go:76-87): a
descriptor of known, non-image-manifest media type yields the continue signal
and is not recorded, while an image-manifest or unknown-media-type descriptor
is appended to the resolution set and yields the prune sentinel, so the
walker does not descend past it (the walk result does not depend on its
children). -/
theorem resolve_visitor_policy (acc : List Descriptor) (dCont dRec : Descriptor)
    (children : Descriptor → Except String (List Descriptor)) (fuel : Nat)
    (hKnown : isKnownMediaType dCont.mediaType = true)
    (hNotMan : dCont.mediaType ≠ MediaTypeImageManifest)
    (hRec : isKnownMediaType dRec.mediaType = false ∨
      dRec.mediaType = MediaTypeImageManifest) :
    resolveVisit acc dCont = (acc, VisitAction.proceed) ∧
    resolveVisit acc dRec = (acc ++ [dRec], VisitAction.skipDesc) ∧
    walkFrom children resolveVisit (fuel + 1) acc dRec =
      Except.ok (acc ++ [dRec]) := by
  have h1 : resolveVisit acc dCont = (acc, VisitAction.proceed) := by
    simp [resolveVisit, hKnown, bne_iff_ne, hNotMan]
  have h2 : resolveVisit acc dRec = (acc ++ [dRec], VisitAction.skipDesc) := by
    rcases hRec with h | h
    · simp [resolveVisit, h]
    · simp [resolveVisit, h]
  refine ⟨h1, h2, ?_⟩
  simp only [walkFrom, h2]

/-- C2 witness: an image-index node passes through, an image-manifest node is
recorded and pruned. -/
theorem resolve_visitor_policy_witness :
    isKnownMediaType dIndexNode.mediaType = true ∧
    dIndexNode.mediaType ≠ MediaTypeImageManifest ∧
    (isKnownMediaType dManifestNode.mediaType = false ∨
      dManifestNode.mediaType = MediaTypeImageManifest) ∧
    (resolveVisit [] dIndexNode = ([], VisitAction.proceed) ∧
     resolveVisit [] dManifestNode = ([] ++ [dManifestNode], VisitAction.skipDesc) ∧
     walkFrom badChildren resolveVisit (0 + 1) [] dManifestNode =
       Except.ok ([] ++ [dManifestNode])) :=
  ⟨by decide, by decide, Or.inr rfl,
   resolve_visitor_policy [] dIndexNode dManifestNode badChildren 0
     (by decide) (by decide) (Or.inr rfl)⟩

/-- C3: after a successful UpdateReference, exactly one committed entry
matches refname, namely the tagged descriptor appended at the end, and the
non-matching prior entries are preserved unchanged and in order. -/
theorem updateReference_exactly_one_ref (r : String) (D : Descriptor) (s : Store)
    (hg : s.getErr = none) (hp : s.putErr = none) :
    (UpdateReference r D s).2 = Except.ok () ∧
    selectRoots r (UpdateReference r D s).1.index.manifests = [tagDescriptor r D] ∧
    (UpdateReference r D s).1.index.manifests.getLast? = some (tagDescriptor r D) ∧
    removeRefEntries r (UpdateReference r D s).1.index.manifests =
      removeRefEntries r s.index.manifests := by
  obtain ⟨hok, hidx, -, -, -, -⟩ := updateReference_run r D s hg hp
  have hm : (UpdateReference r D s).1.index.manifests =
      removeRefEntries r s.index.manifests ++ [tagDescriptor r D] := by
    rw [hidx]
  refine ⟨hok, ?_, ?_, ?_⟩
  · rw [hm, selectRoots_append, selectRoots_removeRef, selectRoots_tag_single,
      List.nil_append]
  · rw [hm]
    exact List.getLast?_concat _
  · rw [hm, removeRef_append, removeRef_idem, removeRef_tag_single,
      List.append_nil]

/-- C3 witness: replacing the two entries tagged "latest". -/
theorem updateReference_exactly_one_ref_witness :
    sLatest.getErr = none ∧ sLatest.putErr = none ∧
    ((UpdateReference "latest" dPlain sLatest).2 = Except.ok () ∧
     selectRoots "latest" (UpdateReference "latest" dPlain sLatest).1.index.manifests =
       [tagDescriptor "latest" dPlain] ∧
     (UpdateReference "latest" dPlain sLatest).1.index.manifests.getLast? =
       some (tagDescriptor "latest" dPlain) ∧
     removeRefEntries "latest" (UpdateReference "latest" dPlain sLatest).1.index.manifests =
       removeRefEntries "latest" sLatest.index.manifests) :=
  ⟨rfl, rfl, updateReference_exactly_one_ref "latest" dPlain sLatest rfl rfl⟩

/-- C4: AddReferences with zero descriptors succeeds and is a pure no-op:
the store (index, GetIndex and PutIndex call counters included) is returned
untouched. -/
theorem addReferences_empty_noop (r : String) (s : Store) :
    AddReferences r [] s = (s, Except.ok ()) ∧
    (AddReferences r [] s).1.index = s.index ∧
    (AddReferences r [] s).1.getCount = s.getCount ∧
    (AddReferences r [] s).1.putCount = s.putCount :=
  ⟨rfl, rfl, rfl, rfl⟩

/-- C5: every descriptor tagged by UpdateReference or AddReferences carries a
non-nil annotation map holding the reference key mapped to refname (the map
is initialized when absent), and it is exactly these tagged descriptors that
both mutators append to the committed index. -/
theorem tagged_annots_initialized (r : String) (D : Descriptor)
    (ds : List Descriptor) (s : Store)
    (hg : s.getErr = none) (hp : s.putErr = none) (hne : ds ≠ []) :
    (∀ d : Descriptor, ∃ m, (tagDescriptor r d).annots = some m ∧
      alistLookup m annotationRefName = some r) ∧
    (UpdateReference r D s).1.index.manifests.getLast? = some (tagDescriptor r D) ∧
    (AddReferences r ds s).1.index.manifests =
      s.index.manifests ++ ds.map (tagDescriptor r) := by
  refine ⟨?_, ?_, ?_⟩
  · intro d
    cases hda : d.annots with
    | none =>
      exact ⟨_, by simp [tagDescriptor, hda],
        alistLookup_set_self [] annotationRefName r⟩
    | some m =>
      exact ⟨_, by simp [tagDescriptor, hda],
        alistLookup_set_self m annotationRefName r⟩
  · have hidx := (updateReference_run r D s hg hp).2.1
    have hm : (UpdateReference r D s).1.index.manifests =
        removeRefEntries r s.index.manifests ++ [tagDescriptor r D] := by
      rw [hidx]
    rw [hm]
    exact List.getLast?_concat _
  · have hidx := (addReferences_run r ds s hne hg hp).2.1
    rw [hidx]

/-- C5 witness: tagging a descriptor whose annotation map is nil. -/
theorem tagged_annots_initialized_witness :
    sEmpty.getErr = none ∧ sEmpty.putErr = none ∧
    ([dManifestNode] : List Descriptor) ≠ [] ∧
    ((∀ d : Descriptor, ∃ m, (tagDescriptor "v1" d).annots = some m ∧
        alistLookup m annotationRefName = some "v1") ∧
     (UpdateReference "v1" dManifestNode sEmpty).1.index.manifests.getLast? =
       some (tagDescriptor "v1" dManifestNode) ∧
     (AddReferences "v1" [dManifestNode] sEmpty).1.index.manifests =
       sEmpty.index.manifests ++ [dManifestNode].map (tagDescriptor "v1")) :=
  ⟨rfl, rfl, by simp,
   tagged_annots_initialized "v1" dManifestNode [dManifestNode] sEmpty rfl rfl
     (by simp)⟩

/-- C6: ListReferences returns the reference-annotation value of every
top-level entry carrying the key, in index order, duplicates preserved. -/
theorem listReferences_in_order (s : Store) (hg : s.getErr = none) :
    (ListReferences s).2 = Except.ok
      ((s.index.manifests.filter
          (fun d => (annotLookup d.annots annotationRefName).isSome)).map
        (fun d => annotGet d.annots annotationRefName)) := by
  rw [listReferences_run s hg, filterMap_annot_eq_filter_map]

/-- C6 witness: two entries sharing refname "a" yield both copies. -/
theorem listReferences_in_order_witness :
    sAA.getErr = none ∧
    (ListReferences sAA).2 = Except.ok ["a", "a"] :=
  ⟨rfl, listReferences_in_order sAA rfl⟩

/-- C7: a failed index fetch makes ResolveReference return the error wrapped
with "get top-level index", and a failing walk on any matching root (after
earlier roots walked fine) makes it return only that error, wrapped with the
root's digest — the resolutions gathered so far are discarded. -/
theorem resolveReference_error_propagation (s : Store) (r e e' : String)
    (pre rest : List Descriptor) (root : Descriptor) (acc : List Descriptor)
    (hg : s.getErr = none)
    (hroots : selectRoots r s.index.manifests = pre ++ root :: rest)
    (hpre : resolveRoots s.children s.walkFuel pre [] = Except.ok acc)
    (hfail : walkFrom s.children resolveVisit s.walkFuel acc root =
      Except.error e') :
    (ResolveReference r { s with getErr := some e }).2 =
      Except.error (wrapErr "get top-level index" e) ∧
    (ResolveReference r s).2 =
      Except.error (wrapErr ("walk " ++ root.digest) e') := by
  constructor
  · rfl
  · rw [resolveReference_run r s hg, hroots,
      resolveRoots_append_ok s.children s.walkFuel pre (root :: rest) [] acc hpre]
    simp only [resolveRoots, hfail]

/-- C7 witness: one root tagged "x" whose blob fetch fails. -/
theorem resolveReference_error_propagation_witness :
    sWalkFail.getErr = none ∧
    selectRoots "x" sWalkFail.index.manifests = [] ++ dIndexNode :: [] ∧
    resolveRoots sWalkFail.children sWalkFail.walkFuel [] [] = Except.ok [] ∧
    walkFrom sWalkFail.children resolveVisit sWalkFail.walkFuel [] dIndexNode =
      Except.error "blob fetch failed" ∧
    ((ResolveReference "x" { sWalkFail with getErr := some "io down" }).2 =
       Except.error (wrapErr "get top-level index" "io down") ∧
     (ResolveReference "x" sWalkFail).2 =
       Except.error (wrapErr ("walk " ++ dIndexNode.digest) "blob fetch failed")) :=
  ⟨rfl, rfl, rfl, rfl,
   resolveReference_error_propagation sWalkFail "x" "io down" "blob fetch failed"
     [] [] dIndexNode [] rfl rfl rfl rfl⟩

/-- C8: AddReferences(r, D) for an image-manifest D followed by a successful
ResolveReference(r) yields a resolution set containing a descriptor equal to
D in digest and media type. -/
theorem add_then_resolve_roundtrip (r : String) (D : Descriptor) (s : Store)
    (res : List Descriptor)
    (hg : s.getErr = none) (hp : s.putErr = none)
    (hm : D.mediaType = MediaTypeImageManifest)
    (hres : (ResolveReference r (AddReferences r [D] s).1).2 = Except.ok res) :
    ∃ d, d ∈ res ∧ d.digest = D.digest ∧ d.mediaType = D.mediaType := by
  obtain ⟨-, hidx, hg1, -, -, -⟩ := addReferences_run r [D] s (by simp) hg hp
  rw [resolveReference_run r (AddReferences r [D] s).1 hg1] at hres
  have hman : (AddReferences r [D] s).1.index.manifests =
      s.index.manifests ++ [tagDescriptor r D] := by rw [hidx]; exact rfl
  rw [hman, selectRoots_append, selectRoots_tag_single] at hres
  have hmem := resolveRoots_concat_manifest
    (AddReferences r [D] s).1.children (AddReferences r [D] s).1.walkFuel
    (selectRoots r s.index.manifests) (tagDescriptor r D) hm [] res hres
  exact ⟨tagDescriptor r D, hmem, rfl, rfl⟩

/-- C8 witness: adding a fresh manifest under "v1" and resolving it back. -/
theorem add_then_resolve_roundtrip_witness :
    sEmpty.getErr = none ∧ sEmpty.putErr = none ∧
    dManifestNode.mediaType = MediaTypeImageManifest ∧
    (ResolveReference "v1" (AddReferences "v1" [dManifestNode] sEmpty).1).2 =
      Except.ok [tagDescriptor "v1" dManifestNode] ∧
    (∃ d, d ∈ [tagDescriptor "v1" dManifestNode] ∧
      d.digest = dManifestNode.digest ∧
      d.mediaType = dManifestNode.mediaType) :=
  ⟨rfl, rfl, rfl, rfl,
   add_then_resolve_roundtrip "v1" dManifestNode sEmpty
     [tagDescriptor "v1" dManifestNode] rfl rfl rfl rfl⟩

/-- C9: DeleteReference is idempotent: both calls succeed and the second
commits an index identical to the one produced by the first. -/
theorem deleteReference_idempotent (r : String) (s : Store)
    (hg : s.getErr = none) (hp : s.putErr = none) :
    (DeleteReference r s).2 = Except.ok () ∧
    (DeleteReference r (DeleteReference r s).1).2 = Except.ok () ∧
    (DeleteReference r (DeleteReference r s).1).1.index =
      (DeleteReference r s).1.index := by
  obtain ⟨hok1, hidx1, hg1, hp1, -, -⟩ := deleteReference_run r s hg hp
  obtain ⟨hok2, hidx2, -, -, -, -⟩ :=
    deleteReference_run r (DeleteReference r s).1 hg1 hp1
  refine ⟨hok1, hok2, ?_⟩
  rw [hidx2, hidx1]
  simp [removeRef_idem]

/-- C9 witness: deleting "latest" twice. -/
theorem deleteReference_idempotent_witness :
    sLatest.getErr = none ∧ sLatest.putErr = none ∧
    ((DeleteReference "latest" sLatest).2 = Except.ok () ∧
     (DeleteReference "latest" (DeleteReference "latest" sLatest).1).2 =
       Except.ok () ∧
     (DeleteReference "latest" (DeleteReference "latest" sLatest).1).1.index =
       (DeleteReference "latest" sLatest).1.index) :=
  ⟨rfl, rfl, deleteReference_idempotent "latest" sLatest rfl rfl⟩

/-- C10: an untagged descriptor (nil annotation map or missing reference
key) compares equal to the empty refname, because the missing map lookup
yields the empty string: ResolveReference("") selects every untagged entry
as a root, and DeleteReference("") (like the removal phase of
UpdateReference("", D)) removes every untagged entry. -/
theorem empty_refname_matches_untagged (s : Store) (d D : Descriptor)
    (h : d.annots = none ∨ annotLookup d.annots annotationRefName = none)
    (hg : s.getErr = none) (hp : s.putErr = none) :
    annotGet d.annots annotationRefName = "" ∧
    matchesRef "" d = true ∧
    (d ∈ s.index.manifests → d ∈ selectRoots "" s.index.manifests) ∧
    d ∉ (DeleteReference "" s).1.index.manifests ∧
    (DeleteReference "" s).1.index.manifests =
      removeRefEntries "" s.index.manifests ∧
    (UpdateReference "" D s).1.index.manifests =
      removeRefEntries "" s.index.manifests ++ [tagDescriptor "" D] := by
  have hget : annotGet d.annots annotationRefName = "" := by
    rcases h with h | h
    · simp [annotGet, annotLookup, h]
    · simp [annotGet, h]
  have hmatch : matchesRef "" d = true := by simp [matchesRef, hget]
  obtain ⟨-, hidxD, -, -, -, -⟩ := deleteReference_run "" s hg hp
  obtain ⟨-, hidxU, -, -, -, -⟩ := updateReference_run "" D s hg hp
  have hDm : (DeleteReference "" s).1.index.manifests =
      removeRefEntries "" s.index.manifests := by rw [hidxD]
  refine ⟨hget, hmatch, ?_, ?_, hDm, by rw [hidxU]⟩
  · intro hmem
    exact List.mem_filter.2 ⟨hmem, hmatch⟩
  · rw [hDm]
    intro hmem
    have hkept := (List.mem_filter.1 hmem).2
    simp [hmatch] at hkept

/-- C10 witness: one untagged entry, removed by DeleteReference("") and
selected as a root by ResolveReference(""). -/
theorem empty_refname_matches_untagged_witness :
    (dPlain.annots = none ∨
      annotLookup dPlain.annots annotationRefName = none) ∧
    sPlain.getErr = none ∧ sPlain.putErr = none ∧
    (annotGet dPlain.annots annotationRefName = "" ∧
     matchesRef "" dPlain = true ∧
     (dPlain ∈ sPlain.index.manifests → dPlain ∈ selectRoots "" sPlain.index.manifests) ∧
     dPlain ∉ (DeleteReference "" sPlain).1.index.manifests ∧
     (DeleteReference "" sPlain).1.index.manifests =
       removeRefEntries "" sPlain.index.manifests ∧
     (UpdateReference "" dOther sPlain).1.index.manifests =
       removeRefEntries "" sPlain.index.manifests ++ [tagDescriptor "" dOther]) :=
  ⟨Or.inl rfl, rfl, rfl,
   empty_refname_matches_untagged sPlain dPlain dOther (Or.inl rfl) rfl rfl⟩

end Umoci
